import Mathlib

/-!
Verification of the request-routing and caching behaviour of the service
worker in src/service-worker.js.  The script is embedded shallowly: requests,
responses and the named cache store become Lean structures, the host cache and
network APIs become explicit state passing, and each strategy function of the
source becomes a Lean function of the same name.  Fire-and-forget background
work is represented by returning the list of issued background requests
together with a separate function giving the eventual effect of such a task.
-/

/-! ## JavaScript string primitives used by the source -/

/-- Chars of the haystack start with the chars of the pattern. -/
def strStartsWith : List Char → List Char → Bool
  | _, [] => true
  | [], _ :: _ => false
  | a :: as, b :: bs => a == b && strStartsWith as bs

/-- Helper for substring search: does the needle occur in the haystack? -/
def strIncludesAux (needle : List Char) : List Char → Bool
  | [] => strStartsWith [] needle
  | h :: t => strStartsWith (h :: t) needle || strIncludesAux needle t

/-- JavaScript String.includes: substring containment. -/
def strIncludes (s pat : String) : Bool :=
  strIncludesAux pat.toList s.toList

/-- JavaScript String.endsWith. -/
def strEndsWith (s tail : String) : Bool :=
  strStartsWith s.toList.reverse tail.toList.reverse

/-- Helper for String.replace with a plain-string pattern: replace the first
occurrence of the pattern by the replacement. -/
def replaceFirstAux (pat repl : List Char) : List Char → List Char
  | [] => if pat.isEmpty then repl else []
  | h :: t =>
    if strStartsWith (h :: t) pat then repl ++ List.drop pat.length (h :: t)
    else h :: replaceFirstAux pat repl t

/-- JavaScript String.replace with a plain-string pattern (first occurrence). -/
def jsReplace (s pat repl : String) : String :=
  ⟨replaceFirstAux pat.toList repl.toList s.toList⟩

/-! ## Data model: requests, responses, the named cache store -/

/-- An intercepted request: method, parsed URL components, the Accept header
(absent when the header is not set), the request mode and the cache mode
(the install handler builds requests with cache mode "reload"). -/
structure Request where
  method : String
  urlHref : String
  urlPathname : String
  urlProtocol : String
  accept : Option String
  mode : String
  cacheMode : String
deriving DecidableEq

/-- A response: status, status text, headers and body. -/
structure Response where
  status : Nat
  statusText : String
  headers : List (String × String)
  body : String
deriving DecidableEq

/-- Response.ok of the platform: the status lies in the 2xx range. -/
def Response.ok (r : Response) : Bool :=
  decide (200 ≤ r.status) && decide (r.status < 300)

/-- One entry of a named cache: URL key and stored response. -/
abbrev CacheEntry := String × Response

/-- The host cache store: named caches in creation order, each an association
list from URL key to response. -/
structure CacheStore where
  stores : List (String × List CacheEntry)
deriving DecidableEq

def emptyStore : CacheStore := ⟨[]⟩

/-- Look up a URL key in one cache's entry list. -/
def lookupEntry (entries : List CacheEntry) (url : String) : Option Response :=
  match entries with
  | [] => none
  | e :: rest => if e.1 == url then some e.2 else lookupEntry rest url

/-- Helper for the global caches.match: search the named caches in order. -/
def matchInStores (url : String) : List (String × List CacheEntry) → Option Response
  | [] => none
  | c :: rest =>
    match lookupEntry c.2 url with
    | some r => some r
    | none => matchInStores url rest

/-- caches.match(request): search every named cache in order for the URL. -/
def CacheStore.matchUrl (s : CacheStore) (url : String) : Option Response :=
  matchInStores url s.stores

/-- The contents of one named cache, when that cache exists. -/
def CacheStore.findCache (s : CacheStore) (name : String) :
    Option (List CacheEntry) :=
  (s.stores.find? (fun c => c.1 == name)).map (fun c => c.2)

/-- Look up a URL inside one particular named cache. -/
def CacheStore.matchInNamed (s : CacheStore) (name url : String) :
    Option Response :=
  match s.findCache name with
  | some es => lookupEntry es url
  | none => none

/-- caches.open(name): create the named cache when it does not exist yet. -/
def CacheStore.openCache (s : CacheStore) (name : String) : CacheStore :=
  if s.stores.any (fun c => c.1 == name) then s else ⟨s.stores ++ [(name, [])]⟩

/-- cache.put on an entry list: overwrite the entry for the key, or append. -/
def putEntry (entries : List CacheEntry) (url : String) (r : Response) :
    List CacheEntry :=
  match entries with
  | [] => [(url, r)]
  | e :: rest => if e.1 == url then (url, r) :: rest else e :: putEntry rest url r

/-- caches.open(name) followed by cache.put(url, r). -/
def CacheStore.putIn (s : CacheStore) (name url : String) (r : Response) :
    CacheStore :=
  let s1 := s.openCache name
  ⟨s1.stores.map (fun c => if c.1 == name then (c.1, putEntry c.2 url r) else c)⟩

/-- caches.keys(): the names of the existing caches. -/
def CacheStore.keys (s : CacheStore) : List String :=
  s.stores.map (fun c => c.1)

/-- caches.delete(name): remove the named cache. -/
def CacheStore.deleteCache (s : CacheStore) (name : String) : CacheStore :=
  ⟨s.stores.filter (fun c => c.1 != name)⟩

/-- The host network: fetch either yields a response or fails with a
transport error (none). -/
abbrev Network := Request → Option Response

/-! ## Constants of the source -/

def CACHE_NAME : String := "attendance-pwa-v1.2"

def STATIC_CACHE : String := "attendance-static-v1.2"

def DYNAMIC_CACHE : String := "attendance-dynamic-v1.2"

def STATIC_RESOURCES : List String :=
  ["./", "./index.html", "./manifest.json", "./logo.png"]

/-- The Google Apps Script URL patterns; the regexes contain only escaped dots
and are unanchored, so each is an exact substring test on the URL. -/
def gasPatternTest (href : String) : Bool :=
  strIncludes href "script.google.com" ||
  strIncludes href "script.googleapis.com" ||
  strIncludes href "googleusercontent.com"

/-- The fetch listener's pre-filter: the request is intercepted
(event.respondWith is called) exactly when the method is GET, no Google Apps
Script pattern matches the URL, and the protocol is plain or secure HTTP. -/
def intercepted (request : Request) : Bool :=
  request.method == "GET" &&
  !gasPatternTest request.urlHref &&
  (request.urlProtocol == "http:" || request.urlProtocol == "https:")

/-! ## Strategies -/

/-- The request's Accept header exists and includes the given pattern. -/
def acceptHas (request : Request) (pat : String) : Bool :=
  match request.accept with
  | some a => strIncludes a pat
  | none => false

/-- The strategy-1 test of handleRequest:
STATIC_RESOURCES.some(resource => url.pathname.endsWith(resource.replace(...))),
where the replace drops a leading "./". -/
def isStaticResourcePath (request : Request) : Bool :=
  STATIC_RESOURCES.any
    (fun resource => strEndsWith request.urlPathname (jsReplace resource "./" ""))

inductive Strategy where
  | cacheFirstS
  | networkFirstWithFallbackS
  | networkFirstS
deriving DecidableEq

/-- The if-cascade of handleRequest, first matching rule wins. -/
def classifyStrategy (request : Request) : Strategy :=
  if isStaticResourcePath request then Strategy.cacheFirstS
  else if acceptHas request "text/html" then Strategy.networkFirstWithFallbackS
  else if acceptHas request "image/" then Strategy.cacheFirstS
  else Strategy.networkFirstS

/-- cacheFirst: global cache match; on a hit return the cached response and
issue one fire-and-forget background refresh (returned as the issued list);
on a miss fetch, store a successful response in the static cache and return
it, and propagate a transport error (none). -/
def cacheFirst (net : Network) (store : CacheStore) (request : Request) :
    Option Response × CacheStore × List Request :=
  match store.matchUrl request.urlHref with
  | some cachedResponse => (some cachedResponse, store, [request])
  | none =>
    match net request with
    | some networkResponse =>
      if networkResponse.ok then
        (some networkResponse,
          store.putIn STATIC_CACHE request.urlHref networkResponse, [])
      else (some networkResponse, store, [])
    | none => (none, store, [])

/-- The eventual effect of the fire-and-forget refresh issued by a cacheFirst
hit: on a successful ok response overwrite the static cache entry, and swallow
every failure (catch of the source ignores it). -/
def backgroundRefresh (net : Network) (store : CacheStore) (request : Request) :
    CacheStore :=
  match net request with
  | some response =>
    if response.ok then store.putIn STATIC_CACHE request.urlHref response
    else store
  | none => store

/-- networkFirst: fetch; store a successful ok response in the dynamic cache
and return it; on a transport error fall back to the global cache match and
rethrow (none) when nothing is cached. -/
def networkFirst (net : Network) (store : CacheStore) (request : Request) :
    Option Response × CacheStore :=
  match net request with
  | some networkResponse =>
    if networkResponse.ok then
      (some networkResponse,
        store.putIn DYNAMIC_CACHE request.urlHref networkResponse)
    else (some networkResponse, store)
  | none =>
    match store.matchUrl request.urlHref with
    | some cachedResponse => (some cachedResponse, store)
    | none => (none, store)

/-- networkFirstWithFallback: run networkFirst; when it throws and the request
is a navigation, serve the cached index page when present, else rethrow. -/
def networkFirstWithFallback (net : Network) (store : CacheStore)
    (request : Request) : Option Response × CacheStore :=
  match networkFirst net store request with
  | (some r, s) => (some r, s)
  | (none, s) =>
    if request.mode == "navigate" then
      match s.matchUrl "./index.html" with
      | some fallback => (some fallback, s)
      | none => (none, s)
    else (none, s)

/-- The synthetic offline response of getOfflineFallback: status 200 with a
JSON body describing the offline state. -/
def offlineResponse : Response :=
  { status := 200
    statusText := "OK"
    headers := [("Content-Type", "application/json")]
    body := "\x7b\"error\":\"Offline\",\"message\":\"You are currently offline. Please check your connection.\"\x7d" }

/-- getOfflineFallback: a navigation request receives the cached index page
when present; otherwise the synthetic offline response. -/
def getOfflineFallback (store : CacheStore) (request : Request) : Response :=
  if request.mode == "navigate" then
    match store.matchUrl "./index.html" with
    | some cachedIndex => cachedIndex
    | none => offlineResponse
  else offlineResponse

/-- Dispatch of the classified strategy inside handleRequest's try block; the
two strategies without background work carry an empty issued list. -/
def runStrategy (net : Network) (store : CacheStore) (request : Request) :
    Option Response × CacheStore × List Request :=
  match classifyStrategy request with
  | Strategy.cacheFirstS => cacheFirst net store request
  | Strategy.networkFirstWithFallbackS =>
    ((networkFirstWithFallback net store request).1,
      (networkFirstWithFallback net store request).2, [])
  | Strategy.networkFirstS =>
    ((networkFirst net store request).1, (networkFirst net store request).2, [])

/-- handleRequest: try the classified strategy; every thrown error is caught
and answered by getOfflineFallback, so a response is always produced. -/
def handleRequest (net : Network) (store : CacheStore) (request : Request) :
    Response × CacheStore × List Request :=
  match runStrategy net store request with
  | (some r, s, bg) => (r, s, bg)
  | (none, s, bg) => (getOfflineFallback s request, s, bg)

/-! ## Lifecycle handlers -/

/-- The install handler's per-asset request:
new Request(url, cache reload), a GET whose cache mode bypasses the HTTP
cache; the other fields carry the platform defaults for a same-origin URL. -/
def mkReloadRequest (url : String) : Request :=
  { method := "GET"
    urlHref := url
    urlPathname := url
    urlProtocol := "https:"
    accept := none
    mode := "cors"
    cacheMode := "reload" }

/-- cache.addAll's fetching phase: every request must yield an ok response,
otherwise the whole operation rejects and nothing is stored. -/
def fetchAllOk (net : Network) : List Request → Option (List CacheEntry)
  | [] => some []
  | r :: rest =>
    match net r with
    | some resp =>
      if resp.ok then
        match fetchAllOk net rest with
        | some acc => some ((r.urlHref, resp) :: acc)
        | none => none
      else none
    | none => none

structure InstallResult where
  store : CacheStore
  skipWaitingCalled : Bool
  issued : List Request
deriving DecidableEq

/-- The install handler: open the static cache and addAll the app-shell list
as forced-reload requests, open the dynamic cache, and call skipWaiting only
when the whole batch succeeded (the catch swallows a failure before the
skipWaiting step is reached). -/
def install (net : Network) (store : CacheStore) : InstallResult :=
  let reqs := STATIC_RESOURCES.map mkReloadRequest
  let s1 := (store.openCache STATIC_CACHE).openCache DYNAMIC_CACHE
  match fetchAllOk net reqs with
  | some entries =>
    { store := entries.foldl (fun s e => s.putIn STATIC_CACHE e.1 e.2) s1
      skipWaitingCalled := true
      issued := reqs }
  | none =>
    { store := s1
      skipWaitingCalled := false
      issued := reqs }

/-- One step of the activate handler's cleanup: delete the named cache unless
it is one of the three known names. -/
def activateStep (s : CacheStore) (cacheName : String) : CacheStore :=
  if cacheName != STATIC_CACHE && cacheName != DYNAMIC_CACHE &&
      cacheName != CACHE_NAME then
    s.deleteCache cacheName
  else s

/-- The activate handler's cache cleanup: run the step over caches.keys(). -/
def activateCleanup (store : CacheStore) : CacheStore :=
  store.keys.foldl activateStep store

/-- The payload of a message event, as the listener reads it. -/
structure MessageData where
  type : Option String
deriving DecidableEq

/-- Modelled from the spec: the source text ends inside the SKIP_WAITING case
of the message listener, so the body of that case is not present under src/;
per the spec the recognized skip-waiting command makes the worker activate
immediately (a skipWaiting call).  The guard (event.data and event.data.type
must be truthy, the empty string being falsy) and the dispatch on the type
field mirror the listener of the source; the result says whether skipWaiting
is invoked. -/
def messageHandler (data : Option MessageData) : Bool :=
  match data with
  | none => false
  | some d =>
    match d.type with
    | none => false
    | some t => if t == "" then false else t == "SKIP_WAITING"

/-- One open window client as the notification-click handler inspects it:
its URL and whether a focus member is present. -/
structure ClientInfo where
  url : String
  canFocus : Bool
deriving DecidableEq

inductive ClickEffect where
  | focused (c : ClientInfo)
  | opened (url : String)
  | noEffect
deriving DecidableEq

structure NotificationClickResult where
  notificationClosed : Bool
  effect : ClickEffect
deriving DecidableEq

/-- The for-loop of the notification-click handler: the first client whose
URL includes the origin and which has a focus member. -/
def findFocusable (origin : String) : List ClientInfo → Option ClientInfo
  | [] => none
  | c :: rest =>
    if strIncludes c.url origin && c.canFocus then some c
    else findFocusable origin rest

/-- The notification-click handler: always close the notification; when the
action is "open" or the default empty action, focus the first matching client
or open a new window at "./" when clients.openWindow exists; any other action
(such as "dismiss") has no further effect. -/
def notificationClick (action origin : String) (clientList : List ClientInfo)
    (openWindowAvailable : Bool) : NotificationClickResult :=
  if action == "open" || action == "" then
    match findFocusable origin clientList with
    | some c => { notificationClosed := true, effect := ClickEffect.focused c }
    | none =>
      if openWindowAvailable then
        { notificationClosed := true, effect := ClickEffect.opened "./" }
      else { notificationClosed := true, effect := ClickEffect.noEffect }
  else { notificationClosed := true, effect := ClickEffect.noEffect }

/-! ## Sample inputs for concrete evaluations -/

def respOkA : Response :=
  { status := 200, statusText := "OK", headers := [], body := "A" }

def respOkB : Response :=
  { status := 200, statusText := "OK", headers := [], body := "B" }

/-- A plain GET request without an Accept header. -/
def reqU : Request :=
  { method := "GET"
    urlHref := "https://app.example/u"
    urlPathname := "/u"
    urlProtocol := "https:"
    accept := none
    mode := "cors"
    cacheMode := "default" }

/-- A navigation request for an HTML page whose path is not an app-shell
asset path. -/
def navReq : Request :=
  { method := "GET"
    urlHref := "https://app.example/page"
    urlPathname := "/page"
    urlProtocol := "https:"
    accept := some "text/html"
    mode := "navigate"
    cacheMode := "default" }

/-- A store whose static cache is empty and whose dynamic cache holds the
entry for reqU. -/
def storeDynOnly : CacheStore :=
  ⟨[(STATIC_CACHE, []), (DYNAMIC_CACHE, [("https://app.example/u", respOkA)])]⟩

/-- A store whose static cache holds the entry for reqU. -/
def storeStaticU : CacheStore :=
  ⟨[(STATIC_CACHE, [("https://app.example/u", respOkB)])]⟩


/-! ## Claim theorems -/

/-- Claim C1 (code bug): an intercepted GET request whose path is not an
app-shell asset path and whose Accept header includes HTML is nevertheless
routed to cache-first, not to network-first-with-offline-fallback: the
app-shell path test turns the "./" entry into the empty suffix, which every
pathname ends with, so the first rule matches every request. -/
theorem html_request_misrouted_to_cache_first :
    intercepted navReq = true ∧
    navReq.accept = some "text/html" ∧
    acceptHas navReq "text/html" = true ∧
    strEndsWith navReq.urlPathname "index.html" = false ∧
    strEndsWith navReq.urlPathname "manifest.json" = false ∧
    strEndsWith navReq.urlPathname "logo.png" = false ∧
    jsReplace "./" "./" "" = "" ∧
    strEndsWith navReq.urlPathname "" = true ∧
    classifyStrategy navReq = Strategy.cacheFirstS := by
  decide

/-- Claim C2 (counterexample): the lookup deciding cacheFirst's hit path is
not the static namespace: here the static cache has no entry for the URL, yet
cacheFirst takes the hit path and returns the dynamic cache's response. -/
theorem cacheFirst_hit_bypasses_static_namespace :
    storeDynOnly.matchInNamed STATIC_CACHE reqU.urlHref = none ∧
    storeDynOnly.matchInNamed DYNAMIC_CACHE reqU.urlHref = some respOkA ∧
    (cacheFirst (fun _ => none) storeDynOnly reqU).1 = some respOkA := by
  decide

/-- Claim C2 (amended): the cache lookup that decides between cacheFirst's
hit path and miss path is the global caches.match over every namespace in
order: a global hit is returned as is (with one background refresh issued),
and only a global miss takes the network path (no refresh issued). -/
theorem cacheFirst_lookup_is_global_match (net : Network) (store : CacheStore)
    (request : Request) :
    (∀ c, store.matchUrl request.urlHref = some c →
      cacheFirst net store request = (some c, store, [request])) ∧
    (store.matchUrl request.urlHref = none →
      (cacheFirst net store request).2.2 = []) := by
  constructor
  · intro c hc
    simp [cacheFirst, hc]
  · intro hn
    simp only [cacheFirst, hn]
    cases hr : net request with
    | none => rfl
    | some r =>
      by_cases hok : r.ok = true
      · simp [hok]
      · simp [hok]

/-- Witness for the amended claim C2 at a concrete store whose only entry for
the URL lives in the dynamic namespace. -/
theorem cacheFirst_lookup_is_global_match_witness :
    storeDynOnly.matchUrl reqU.urlHref = some respOkA ∧
    cacheFirst (fun _ => none) storeDynOnly reqU =
      (some respOkA, storeDynOnly, [reqU]) := by
  refine ⟨by decide, ?_⟩
  exact (cacheFirst_lookup_is_global_match (fun _ => none) storeDynOnly
    reqU).1 respOkA (by decide)

/-- Claim C3: when the network fetch fails with a transport error,
networkFirst returns the global cache match for the same request: the cached
response when one exists in any namespace, and a propagated error (none)
exactly when nothing is cached; the store is left unchanged. -/
theorem networkFirst_offline_returns_cache_match (net : Network)
    (store : CacheStore) (request : Request)
    (hnet : net request = none) :
    networkFirst net store request = (store.matchUrl request.urlHref, store) := by
  simp only [networkFirst, hnet]
  cases store.matchUrl request.urlHref with
  | none => rfl
  | some c => rfl

/-- Witness for claim C3: a failing network with a dynamic-cache entry yields
that entry; the same failing network over the empty store yields the error. -/
theorem networkFirst_offline_returns_cache_match_witness :
    ((fun _ => none : Network) reqU = none ∧
      networkFirst (fun _ => none) storeDynOnly reqU = (some respOkA, storeDynOnly)) ∧
    networkFirst (fun _ => none) emptyStore reqU = (none, emptyStore) := by
  refine ⟨⟨rfl, ?_⟩, ?_⟩
  · have h := networkFirst_offline_returns_cache_match (fun _ => none)
      storeDynOnly reqU rfl
    rw [h]
    decide
  · have h := networkFirst_offline_returns_cache_match (fun _ => none)
      emptyStore reqU rfl
    rw [h]
    decide

/-- Claim C8: on a cache hit, cacheFirst returns the cached response with the
store untouched, independently of the network (two arbitrary networks give
the same result), the issued background-refresh list is exactly one fetch of
that request, and a failing background refresh leaves the store unchanged and
is swallowed (the refresh is total, it never propagates an error). -/
theorem cacheFirst_hit_behavior (net netB : Network) (store : CacheStore)
    (request : Request) (c : Response)
    (h : store.matchUrl request.urlHref = some c) :
    cacheFirst net store request = (some c, store, [request]) ∧
    cacheFirst netB store request = (some c, store, [request]) ∧
    (netB request = none → backgroundRefresh netB store request = store) := by
  refine ⟨by simp [cacheFirst, h], by simp [cacheFirst, h], ?_⟩
  intro hfail
  simp [backgroundRefresh, hfail]

/-- Witness for claim C8 on a static-cache hit, with a succeeding and a
failing network. -/
theorem cacheFirst_hit_behavior_witness :
    storeStaticU.matchUrl reqU.urlHref = some respOkB ∧
    cacheFirst (fun _ => some respOkA) storeStaticU reqU =
      (some respOkB, storeStaticU, [reqU]) ∧
    cacheFirst (fun _ => none) storeStaticU reqU =
      (some respOkB, storeStaticU, [reqU]) ∧
    backgroundRefresh (fun _ => none) storeStaticU reqU = storeStaticU := by
  have h := cacheFirst_hit_behavior (fun _ => some respOkA) (fun _ => none)
    storeStaticU reqU respOkB (by decide)
  exact ⟨by decide, h.1, h.2.1, h.2.2 rfl⟩

/-- Claim C9: the message handler invokes skipWaiting exactly for a message
event whose data carries the type field SKIP_WAITING; no other payload (a
missing body, a missing type field, the falsy empty string, or any other
command) triggers it. -/
theorem message_skip_waiting_dispatch (data : Option MessageData) :
    messageHandler data = true ↔ data = some ⟨some "SKIP_WAITING"⟩ := by
  constructor
  · intro h
    match data with
    | none => exact absurd h (by decide)
    | some ⟨none⟩ => exact absurd h (by decide)
    | some ⟨some t⟩ =>
      simp only [messageHandler] at h
      by_cases he : (t == "") = true
      · rw [if_pos he] at h
        exact absurd h (by decide)
      · rw [if_neg he] at h
        have ht : t = "SKIP_WAITING" := by simpa using h
        subst ht
        rfl
  · intro h
    subst h
    decide

/-- Witness for claim C9 at the concrete skip-waiting command. -/
theorem message_skip_waiting_dispatch_witness :
    messageHandler (some ⟨some "SKIP_WAITING"⟩) = true :=
  (message_skip_waiting_dispatch (some ⟨some "SKIP_WAITING"⟩)).mpr rfl

/-- Claim C10: the notification-click handler always closes the notification;
a window is focused or opened only when the clicked action is "open" or the
default empty action; for any other action, "dismiss" included, nothing
happens beyond closing the notification. -/
theorem notification_click_effects (action origin : String)
    (clientList : List ClientInfo) (openWindowAvailable : Bool) :
    (notificationClick action origin clientList
      openWindowAvailable).notificationClosed = true ∧
    ((notificationClick action origin clientList openWindowAvailable).effect ≠
        ClickEffect.noEffect →
      action = "open" ∨ action = "") ∧
    (action = "dismiss" →
      (notificationClick action origin clientList openWindowAvailable).effect =
        ClickEffect.noEffect) := by
  refine ⟨?_, ?_, ?_⟩
  · unfold notificationClick
    by_cases h : (action == "open" || action == "") = true
    · rw [if_pos h]
      cases findFocusable origin clientList with
      | some c => rfl
      | none =>
        by_cases ho : openWindowAvailable = true
        · rw [if_pos ho]
        · rw [if_neg ho]
    · rw [if_neg h]
  · intro hne
    by_cases h : (action == "open" || action == "") = true
    · simpa using h
    · exfalso
      apply hne
      unfold notificationClick
      rw [if_neg h]
  · intro h
    subst h
    unfold notificationClick
    rw [if_neg (by decide)]

/-- Witness for claim C10 at the "dismiss" action over a focusable client. -/
theorem notification_click_effects_witness :
    (notificationClick "dismiss" "https://app.example"
      [⟨"https://app.example/", true⟩] true).notificationClosed = true ∧
    (notificationClick "dismiss" "https://app.example"
      [⟨"https://app.example/", true⟩] true).effect = ClickEffect.noEffect := by
  have h := notification_click_effects "dismiss" "https://app.example"
    [⟨"https://app.example/", true⟩] true
  exact ⟨h.1, h.2.2 rfl⟩

/-! ## Failure frame lemmas: a throwing strategy leaves the store unchanged -/

theorem cacheFirst_fail (net : Network) (store : CacheStore) (request : Request)
    (h : (cacheFirst net store request).1 = none) :
    cacheFirst net store request = (none, store, []) := by
  cases hm : store.matchUrl request.urlHref with
  | some c => simp [cacheFirst, hm] at h
  | none =>
    cases hn : net request with
    | none => simp [cacheFirst, hm, hn]
    | some r =>
      by_cases hok : r.ok = true
      · simp [cacheFirst, hm, hn, hok] at h
      · simp [cacheFirst, hm, hn, hok] at h

theorem networkFirst_fail (net : Network) (store : CacheStore) (request : Request)
    (h : (networkFirst net store request).1 = none) :
    networkFirst net store request = (none, store) := by
  cases hn : net request with
  | some r =>
    by_cases hok : r.ok = true
    · simp [networkFirst, hn, hok] at h
    · simp [networkFirst, hn, hok] at h
  | none =>
    cases hm : store.matchUrl request.urlHref with
    | some c => simp [networkFirst, hn, hm] at h
    | none => simp [networkFirst, hn, hm]

theorem networkFirstWithFallback_fail (net : Network) (store : CacheStore)
    (request : Request)
    (h : (networkFirstWithFallback net store request).1 = none) :
    networkFirstWithFallback net store request = (none, store) := by
  cases hnf : networkFirst net store request with
  | mk ro s =>
    cases ro with
    | some r => simp [networkFirstWithFallback, hnf] at h
    | none =>
      have hs : s = store := by
        have h2 := networkFirst_fail net store request (by rw [hnf])
        rw [hnf] at h2
        exact congrArg Prod.snd h2
      by_cases hnav : (request.mode == "navigate") = true
      · cases hm : CacheStore.matchUrl store "./index.html" with
        | some c => simp [networkFirstWithFallback, hnf, hs, hnav, hm] at h
        | none => simp [networkFirstWithFallback, hnf, hs, hnav, hm]
      · simp [networkFirstWithFallback, hnf, hs, hnav]

theorem runStrategy_fail (net : Network) (store : CacheStore) (request : Request)
    (h : (runStrategy net store request).1 = none) :
    runStrategy net store request = (none, store, []) := by
  cases hcs : classifyStrategy request with
  | cacheFirstS =>
    have h1 : (cacheFirst net store request).1 = none := by
      simpa [runStrategy, hcs] using h
    simp [runStrategy, hcs, cacheFirst_fail net store request h1]
  | networkFirstWithFallbackS =>
    have h1 : (networkFirstWithFallback net store request).1 = none := by
      simpa [runStrategy, hcs] using h
    simp [runStrategy, hcs, networkFirstWithFallback_fail net store request h1]
  | networkFirstS =>
    have h1 : (networkFirst net store request).1 = none := by
      simpa [runStrategy, hcs] using h
    simp [runStrategy, hcs, networkFirst_fail net store request h1]

/-- Claim C4: when the classified strategy (fallbacks included) throws, the
top-level handler still returns a response: a navigation request receives the
cached index entry when one is present, any other failing request (or a
navigation without a cached index) receives the synthetic offline response,
whose HTTP status is 200 and whose JSON body carries the offline indicator;
no error escapes handleRequest. -/
theorem handleRequest_offline_fallback (net : Network) (store : CacheStore)
    (request : Request)
    (hfail : (runStrategy net store request).1 = none) :
    (∀ c, request.mode = "navigate" → store.matchUrl "./index.html" = some c →
      handleRequest net store request = (c, store, [])) ∧
    ((request.mode = "navigate" → store.matchUrl "./index.html" = none) →
      handleRequest net store request = (offlineResponse, store, [])) ∧
    offlineResponse.status = 200 ∧
    strIncludes offlineResponse.body "Offline" = true := by
  have hrun := runStrategy_fail net store request hfail
  refine ⟨?_, ?_, rfl, by decide⟩
  · intro c hmode hc
    simp [handleRequest, hrun, getOfflineFallback, hmode, hc]
  · intro himp
    by_cases hnav : (request.mode == "navigate") = true
    · have hmode : request.mode = "navigate" := by simpa using hnav
      simp [handleRequest, hrun, getOfflineFallback, hnav, himp hmode]
    · simp [handleRequest, hrun, getOfflineFallback, hnav]

/-- Witness for claim C4: a navigation HTML request over the empty store with
a dead network receives the synthetic 200-status offline response. -/
theorem handleRequest_offline_fallback_witness :
    (runStrategy (fun _ => none) emptyStore navReq).1 = none ∧
    handleRequest (fun _ => none) emptyStore navReq =
      (offlineResponse, emptyStore, []) := by
  have h := handleRequest_offline_fallback (fun _ => none) emptyStore navReq
    (by decide)
  exact ⟨by decide, h.2.1 (fun _ => rfl)⟩

/-! ## Activate cleanup lemmas -/

theorem find?_filter_of_imp {α : Type} (p q : α → Bool) (l : List α)
    (h : ∀ a, p a = true → q a = true) :
    (l.filter q).find? p = l.find? p := by
  induction l with
  | nil => rfl
  | cons a l ih =>
    by_cases hq : q a = true
    · rw [List.filter_cons_of_pos hq]
      by_cases hp : p a = true
      · rw [List.find?_cons_of_pos _ hp, List.find?_cons_of_pos _ hp]
      · rw [List.find?_cons_of_neg _ (by simpa using hp),
          List.find?_cons_of_neg _ (by simpa using hp), ih]
    · have hp : p a = false := by
        cases hpa : p a with
        | false => rfl
        | true => exact absurd (h a hpa) hq
      rw [List.filter_cons_of_neg (by simpa using hq), ih,
        List.find?_cons_of_neg _ (by simp [hp])]

theorem findCache_deleteCache_self (s : CacheStore) (n : String) :
    (s.deleteCache n).findCache n = none := by
  have hf : (s.stores.filter (fun c => c.1 != n)).find? (fun c => c.1 == n) =
      none := by
    rw [List.find?_eq_none]
    intro x hx
    have hmem := List.mem_filter.mp hx
    have hne : x.1 ≠ n := by simpa using hmem.2
    simpa using hne
  simp [CacheStore.deleteCache, CacheStore.findCache, hf]

theorem findCache_deleteCache_ne (s : CacheStore) (m n : String) (hne : n ≠ m) :
    (s.deleteCache m).findCache n = s.findCache n := by
  unfold CacheStore.deleteCache CacheStore.findCache
  rw [show (CacheStore.mk (s.stores.filter (fun c => c.1 != m))).stores =
      s.stores.filter (fun c => c.1 != m) from rfl]
  rw [find?_filter_of_imp]
  intro a ha
  have hn : a.1 = n := by simpa using ha
  simp [hn, hne]

theorem findCache_none_of_not_mem_keys (s : CacheStore) (n : String)
    (h : n ∉ s.keys) : s.findCache n = none := by
  have hf : s.stores.find? (fun c => c.1 == n) = none := by
    rw [List.find?_eq_none]
    intro x hx hpx
    apply h
    have hxn : x.1 = n := by simpa using hpx
    rw [← hxn]
    exact List.mem_map_of_mem _ hx
  simp [CacheStore.findCache, hf]

theorem findCache_none_foldl (L : List String) (s : CacheStore) (n : String)
    (h : s.findCache n = none) :
    (L.foldl activateStep s).findCache n = none := by
  induction L generalizing s with
  | nil => exact h
  | cons m L ih =>
    rw [List.foldl_cons]
    apply ih
    unfold activateStep
    by_cases hc : (m != STATIC_CACHE && m != DYNAMIC_CACHE && m != CACHE_NAME) =
        true
    · rw [if_pos hc]
      by_cases hnm : n = m
      · subst hnm
        exact findCache_deleteCache_self s n
      · rw [findCache_deleteCache_ne s m n hnm]
        exact h
    · rw [if_neg hc]
      exact h

theorem findCache_foldl_of_mem (L : List String) (n : String)
    (h1 : n ≠ STATIC_CACHE) (h2 : n ≠ DYNAMIC_CACHE) (h3 : n ≠ CACHE_NAME) :
    ∀ s : CacheStore, n ∈ L → (L.foldl activateStep s).findCache n = none := by
  induction L with
  | nil =>
    intro s hmem
    cases hmem
  | cons m L ih =>
    intro s hmem
    rw [List.foldl_cons]
    rcases List.mem_cons.mp hmem with hm | hm
    · subst hm
      apply findCache_none_foldl
      unfold activateStep
      rw [if_pos (by simp [h1, h2, h3])]
      exact findCache_deleteCache_self s n
    · exact ih (activateStep s m) hm

theorem findCache_foldl_keep (L : List String) (n : String)
    (hk : n = STATIC_CACHE ∨ n = DYNAMIC_CACHE ∨ n = CACHE_NAME) :
    ∀ s : CacheStore, (L.foldl activateStep s).findCache n = s.findCache n := by
  induction L with
  | nil =>
    intro s
    rfl
  | cons m L ih =>
    intro s
    rw [List.foldl_cons, ih]
    unfold activateStep
    by_cases hc : (m != STATIC_CACHE && m != DYNAMIC_CACHE && m != CACHE_NAME) =
        true
    · rw [if_pos hc]
      have hc2 : (m ≠ STATIC_CACHE ∧ m ≠ DYNAMIC_CACHE) ∧ m ≠ CACHE_NAME := by
        simpa [Bool.and_eq_true] using hc
      have hnm : n ≠ m := by
        rcases hk with h | h | h
        · rw [h]
          exact fun he => hc2.1.1 he.symm
        · rw [h]
          exact fun he => hc2.1.2 he.symm
        · rw [h]
          exact fun he => hc2.2 he.symm
      exact findCache_deleteCache_ne s m n hnm
    · rw [if_neg hc]

/-- Claim C5: after the activate cleanup over any cache store, every cache
whose name is not one of the three known identifiers is gone, and the caches
with the three known names keep exactly their previous contents. -/
theorem activate_purges_unknown_and_preserves_known (store : CacheStore) :
    (∀ name : String, name ≠ STATIC_CACHE → name ≠ DYNAMIC_CACHE →
      name ≠ CACHE_NAME → (activateCleanup store).findCache name = none) ∧
    (activateCleanup store).findCache STATIC_CACHE =
      store.findCache STATIC_CACHE ∧
    (activateCleanup store).findCache DYNAMIC_CACHE =
      store.findCache DYNAMIC_CACHE ∧
    (activateCleanup store).findCache CACHE_NAME = store.findCache CACHE_NAME := by
  refine ⟨?_, ?_, ?_, ?_⟩
  · intro name h1 h2 h3
    unfold activateCleanup
    by_cases hmem : name ∈ store.keys
    · exact findCache_foldl_of_mem store.keys name h1 h2 h3 store hmem
    · exact findCache_none_foldl store.keys store name
        (findCache_none_of_not_mem_keys store name hmem)
  · exact findCache_foldl_keep store.keys STATIC_CACHE (Or.inl rfl) store
  · exact findCache_foldl_keep store.keys DYNAMIC_CACHE (Or.inr (Or.inl rfl))
      store
  · exact findCache_foldl_keep store.keys CACHE_NAME (Or.inr (Or.inr rfl)) store

/-- A store holding an obsolete versioned cache next to the three known ones. -/
def storeMixed : CacheStore :=
  ⟨[("attendance-static-v1.0", [("u", respOkA)]),
    (STATIC_CACHE, [("a", respOkA)]),
    (DYNAMIC_CACHE, [("b", respOkB)]),
    (CACHE_NAME, [])]⟩

/-- Witness for claim C5: the obsolete cache is deleted and the three known
caches keep their contents. -/
theorem activate_purges_unknown_and_preserves_known_witness :
    (activateCleanup storeMixed).findCache "attendance-static-v1.0" = none ∧
    (activateCleanup storeMixed).findCache STATIC_CACHE =
      storeMixed.findCache STATIC_CACHE ∧
    (activateCleanup storeMixed).findCache DYNAMIC_CACHE =
      storeMixed.findCache DYNAMIC_CACHE ∧
    (activateCleanup storeMixed).findCache CACHE_NAME =
      storeMixed.findCache CACHE_NAME := by
  have h := activate_purges_unknown_and_preserves_known storeMixed
  exact ⟨h.1 "attendance-static-v1.0" (by decide) (by decide) (by decide),
    h.2.1, h.2.2.1, h.2.2.2⟩

/-- Claim C6: when the forced-reload fetch of each app-shell asset succeeds
with an ok response, install over a fresh store leaves the static cache with
exactly the four app-shell entries in list order, creates the empty dynamic
cache, and calls skipWaiting; every request it issues carries the
cache-bypassing reload mode. -/
theorem install_populates_shell (net : Network) (r0 r1 r2 r3 : Response)
    (h0 : net (mkReloadRequest "./") = some r0) (k0 : r0.ok = true)
    (h1 : net (mkReloadRequest "./index.html") = some r1) (k1 : r1.ok = true)
    (h2 : net (mkReloadRequest "./manifest.json") = some r2) (k2 : r2.ok = true)
    (h3 : net (mkReloadRequest "./logo.png") = some r3) (k3 : r3.ok = true) :
    install net emptyStore =
      { store := ⟨[(STATIC_CACHE,
          [("./", r0), ("./index.html", r1), ("./manifest.json", r2),
            ("./logo.png", r3)]),
          (DYNAMIC_CACHE, [])]⟩
        skipWaitingCalled := true
        issued := STATIC_RESOURCES.map mkReloadRequest } ∧
    ∀ r ∈ (install net emptyStore).issued, r.cacheMode = "reload" := by
  have hfetch : fetchAllOk net
      [mkReloadRequest "./", mkReloadRequest "./index.html",
        mkReloadRequest "./manifest.json", mkReloadRequest "./logo.png"] =
      some [("./", r0), ("./index.html", r1), ("./manifest.json", r2),
        ("./logo.png", r3)] := by
    simp only [fetchAllOk, h0, h1, h2, h3, k0, k1, k2, k3, if_true]
    rfl
  have hmain : install net emptyStore =
      { store := ⟨[(STATIC_CACHE,
          [("./", r0), ("./index.html", r1), ("./manifest.json", r2),
            ("./logo.png", r3)]),
          (DYNAMIC_CACHE, [])]⟩
        skipWaitingCalled := true
        issued := STATIC_RESOURCES.map mkReloadRequest } := by
    simp only [install, STATIC_RESOURCES, List.map, hfetch]
    rfl
  refine ⟨hmain, ?_⟩
  rw [hmain]
  intro r hr
  simp only [STATIC_RESOURCES, List.map, List.mem_cons,
    List.not_mem_nil, or_false] at hr
  rcases hr with h | h | h | h <;> subst h <;> rfl

/-- Witness for claim C6 with a network answering every asset with the same
ok response. -/
theorem install_populates_shell_witness :
    install (fun _ => some respOkA) emptyStore =
      { store := ⟨[(STATIC_CACHE,
          [("./", respOkA), ("./index.html", respOkA),
            ("./manifest.json", respOkA), ("./logo.png", respOkA)]),
          (DYNAMIC_CACHE, [])]⟩
        skipWaitingCalled := true
        issued := STATIC_RESOURCES.map mkReloadRequest } ∧
    ∀ r ∈ (install (fun _ => some respOkA) emptyStore).issued,
      r.cacheMode = "reload" :=
  install_populates_shell (fun _ => some respOkA) respOkA respOkA respOkA
    respOkA rfl rfl rfl rfl rfl rfl rfl rfl

/-! ## The ok-responses-only invariant -/

/-- Every response stored in an entry list is ok. -/
def entriesOk (es : List CacheEntry) : Bool :=
  es.all (fun e => e.2.ok)

/-- Every response stored anywhere in the cache store is ok. -/
def CacheStore.allOk (s : CacheStore) : Bool :=
  s.stores.all (fun c => entriesOk c.2)

theorem entriesOk_putEntry (es : List CacheEntry) (url : String) (r : Response)
    (hes : entriesOk es = true) (hr : r.ok = true) :
    entriesOk (putEntry es url r) = true := by
  induction es with
  | nil => simp [putEntry, entriesOk, hr]
  | cons e rest ih =>
    have hcons := hes
    simp only [entriesOk, List.all_cons, Bool.and_eq_true] at hcons
    have hrest : entriesOk rest = true := hcons.2
    by_cases hk : (e.1 == url) = true
    · simp only [putEntry, hk, if_true, entriesOk, List.all_cons,
        Bool.and_eq_true]
      exact ⟨hr, hrest⟩
    · have hkf : (e.1 == url) = false := by simpa using hk
      simp only [putEntry, hkf, Bool.false_eq_true, if_false, entriesOk,
        List.all_cons, Bool.and_eq_true]
      refine ⟨hcons.1, ?_⟩
      have hput := ih hrest
      simpa [entriesOk] using hput

theorem allOk_openCache (s : CacheStore) (name : String)
    (h : s.allOk = true) : (s.openCache name).allOk = true := by
  unfold CacheStore.openCache
  by_cases hc : (s.stores.any (fun c => c.1 == name)) = true
  · rw [if_pos hc]
    exact h
  · rw [if_neg hc]
    simp only [CacheStore.allOk, List.all_append, Bool.and_eq_true] at h ⊢
    exact ⟨h, by rfl⟩

theorem allOk_putIn (s : CacheStore) (name url : String) (r : Response)
    (h : s.allOk = true) (hr : r.ok = true) :
    (s.putIn name url r).allOk = true := by
  have h1 : (s.openCache name).allOk = true := allOk_openCache s name h
  unfold CacheStore.putIn
  simp only [CacheStore.allOk, List.all_eq_true] at h1 ⊢
  intro c hc
  rcases List.mem_map.mp hc with ⟨c0, hc0, hmap⟩
  subst hmap
  by_cases hn : (c0.1 == name) = true
  · simp only [hn, if_true]
    exact entriesOk_putEntry c0.2 url r (h1 c0 hc0) hr
  · rw [if_neg hn]
    exact h1 c0 hc0

theorem allOk_cacheFirst (net : Network) (store : CacheStore)
    (request : Request) (h : store.allOk = true) :
    ((cacheFirst net store request).2.1).allOk = true := by
  cases hm : store.matchUrl request.urlHref with
  | some c => simpa [cacheFirst, hm] using h
  | none =>
    cases hn : net request with
    | none => simpa [cacheFirst, hm, hn] using h
    | some r =>
      by_cases hok : r.ok = true
      · simp only [cacheFirst, hm, hn, hok, if_true]
        exact allOk_putIn store STATIC_CACHE request.urlHref r h hok
      · simpa [cacheFirst, hm, hn, hok] using h

theorem allOk_backgroundRefresh (net : Network) (store : CacheStore)
    (request : Request) (h : store.allOk = true) :
    (backgroundRefresh net store request).allOk = true := by
  cases hn : net request with
  | none => simpa [backgroundRefresh, hn] using h
  | some r =>
    by_cases hok : r.ok = true
    · simp only [backgroundRefresh, hn, hok, if_true]
      exact allOk_putIn store STATIC_CACHE request.urlHref r h hok
    · simpa [backgroundRefresh, hn, hok] using h

theorem allOk_networkFirst (net : Network) (store : CacheStore)
    (request : Request) (h : store.allOk = true) :
    ((networkFirst net store request).2).allOk = true := by
  cases hn : net request with
  | some r =>
    by_cases hok : r.ok = true
    · simp only [networkFirst, hn, hok, if_true]
      exact allOk_putIn store DYNAMIC_CACHE request.urlHref r h hok
    · simpa [networkFirst, hn, hok] using h
  | none =>
    cases hm : store.matchUrl request.urlHref with
    | some c => simpa [networkFirst, hn, hm] using h
    | none => simpa [networkFirst, hn, hm] using h

theorem fetchAllOk_entriesOk (net : Network) (reqs : List Request)
    (entries : List CacheEntry) (h : fetchAllOk net reqs = some entries) :
    entriesOk entries = true := by
  induction reqs generalizing entries with
  | nil =>
    simp only [fetchAllOk, Option.some.injEq] at h
    subst h
    rfl
  | cons r rest ih =>
    cases hn : net r with
    | none => simp [fetchAllOk, hn] at h
    | some resp =>
      by_cases hok : resp.ok = true
      · simp only [fetchAllOk, hn, hok, if_true] at h
        cases hr : fetchAllOk net rest with
        | none =>
          rw [hr] at h
          exact absurd h (by simp)
        | some acc =>
          rw [hr] at h
          simp only [Option.some.injEq] at h
          subst h
          simp only [entriesOk, List.all_cons, Bool.and_eq_true]
          exact ⟨hok, by simpa [entriesOk] using ih acc hr⟩
      · simp [fetchAllOk, hn, hok] at h

theorem allOk_foldl_putIn (entries : List CacheEntry) :
    ∀ s : CacheStore, s.allOk = true → entriesOk entries = true →
      ((entries.foldl (fun s2 e => s2.putIn STATIC_CACHE e.1 e.2) s)).allOk =
        true := by
  induction entries with
  | nil =>
    intro s hs _
    exact hs
  | cons e rest ih =>
    intro s hs he
    rw [List.foldl_cons]
    simp only [entriesOk, List.all_cons, Bool.and_eq_true] at he
    exact ih (s.putIn STATIC_CACHE e.1 e.2)
      (allOk_putIn s STATIC_CACHE e.1 e.2 hs he.1)
      (by simpa [entriesOk] using he.2)

theorem allOk_install (net : Network) (store : CacheStore)
    (h : store.allOk = true) : ((install net store).store).allOk = true := by
  cases hf : fetchAllOk net (STATIC_RESOURCES.map mkReloadRequest) with
  | none =>
    simp only [install, hf]
    exact allOk_openCache _ _ (allOk_openCache _ _ h)
  | some entries =>
    simp only [install, hf]
    exact allOk_foldl_putIn entries _
      (allOk_openCache _ _ (allOk_openCache _ _ h))
      (fetchAllOk_entriesOk net _ entries hf)

/-- Claim C7: starting from a store whose every cached response is ok, each
writing operation of the worker (the background refresh after a cache-first
hit, the cache-first miss store, the network-first store and the install
pre-population) leaves the store with only ok responses: no operation ever
writes a non-ok response into a cache. -/
theorem only_ok_responses_stored (net : Network) (store : CacheStore)
    (request : Request) (h : store.allOk = true) :
    (backgroundRefresh net store request).allOk = true ∧
    ((cacheFirst net store request).2.1).allOk = true ∧
    ((networkFirst net store request).2).allOk = true ∧
    ((install net store).store).allOk = true :=
  ⟨allOk_backgroundRefresh net store request h,
    allOk_cacheFirst net store request h,
    allOk_networkFirst net store request h,
    allOk_install net store h⟩

/-- Witness for claim C7 over a concrete ok-only store, with a network whose
response is ok. -/
theorem only_ok_responses_stored_witness :
    storeDynOnly.allOk = true ∧
    ((backgroundRefresh (fun _ => some respOkB) storeDynOnly reqU).allOk =
        true ∧
      ((cacheFirst (fun _ => some respOkB) storeDynOnly reqU).2.1).allOk =
        true ∧
      ((networkFirst (fun _ => some respOkB) storeDynOnly reqU).2).allOk =
        true ∧
      ((install (fun _ => some respOkB) storeDynOnly).store).allOk = true) :=
  ⟨by decide,
    only_ok_responses_stored (fun _ => some respOkB) storeDynOnly reqU
      (by decide)⟩
